import Mathlib

/-!
Verification development for the lewis OPC UA adapter
(`lewis/adapters/opcua.py`, class `OPCUAAdapter`).

The adapter is shallowly embedded: Python runtime values become the
inductive `PyValue` (with Python's `bool <: int` subclassing reflected in
the `isinstance` tests), the adapter's mutable attributes become the
record `AdapterState`, dictionaries become association lists, and each
method of the class becomes a Lean function over these types.  The
background poller is embedded one cycle at a time, and lock acquisition /
release / waiting are made observable through explicit event traces.
-/

/-- Python runtime values as they occur in the adapter: the classifier in
`_get_ua_data_type` distinguishes `bool`, `int`, `float`, `str` and
`list`; everything else is handled by a default branch (`other`).
`none` is Python's `None` (the `result is not None` test in
`method_wrapper`).  Floats are carried as rationals: no claim depends on
floating-point rounding, only on `isinstance` classification and on
(in)equality of values. -/
inductive PyValue where
  | bool (b : Bool)
  | int (n : Int)
  | float (q : ℚ)
  | str (s : String)
  | list (xs : List PyValue)
  | none
  | other (tag : String)

/-- `isinstance(value, bool)`. -/
def isinstance_bool : PyValue → Bool
  | .bool _ => true
  | _ => false

/-- `isinstance(value, int)`.  In Python `bool` is a subclass of `int`,
so booleans also satisfy this test — this is exactly why the order of
the checks in `_get_ua_data_type` matters. -/
def isinstance_int : PyValue → Bool
  | .bool _ => true
  | .int _ => true
  | _ => false

/-- `isinstance(value, float)`.  Neither `int` nor `bool` is a Python
`float`. -/
def isinstance_float : PyValue → Bool
  | .float _ => true
  | _ => false

/-- `isinstance(value, str)`. -/
def isinstance_str : PyValue → Bool
  | .str _ => true
  | _ => false

/-- `isinstance(value, list)`. -/
def isinstance_list : PyValue → Bool
  | .list _ => true
  | _ => false

/-- The elements of a list value (only consulted under an
`isinstance(value, list)` guard). -/
def list_elems : PyValue → List PyValue
  | .list xs => xs
  | _ => []

/-- The OPC UA variant-type tags returned by `_get_ua_data_type`
(`ua.VariantType.*`).  Only the tags the function can return are
modelled. -/
inductive VariantType where
  | Boolean
  | Int64
  | Double
  | String
  | Variant
deriving DecidableEq, Repr

/-- `OPCUAAdapter._get_ua_data_type` (opcua.py lines 263-291).

The third list branch in the source is
`all(isinstance(x, float) for x in value or isinstance(x, int) for x in value)`,
a generator with two `for` clauses.  For the values that can reach it the
first iterable `value or isinstance(x, int)` short-circuits to `value`
(the list is necessarily non-empty there, since an empty list already
satisfies the all-booleans branch), the inner `for x in value` rebinds
`x`, and the tested expression uses the innermost binding — so the
expression iterates `value` twice and checks that every element is a
`float`.  It is embedded as the corresponding double `List.all`. -/
def get_ua_data_type (value : PyValue) : VariantType :=
  if isinstance_bool value then VariantType.Boolean
  else if isinstance_int value then VariantType.Int64
  else if isinstance_float value then VariantType.Double
  else if isinstance_str value then VariantType.String
  else if isinstance_list value then
    let elems := list_elems value
    if elems.all (fun x => isinstance_bool x) then VariantType.Boolean
    else if elems.all (fun x => isinstance_int x) then VariantType.Int64
    else if elems.all (fun _ => elems.all (fun x => isinstance_float x)) then
      VariantType.Double
    else VariantType.Variant
  else VariantType.Variant

/-- Numeric view of a value, for Python `==`/`!=`: Python compares
booleans, ints and floats by numeric value (`True == 1`,
`1 == 1.0`). -/
def py_num : PyValue → Option ℚ
  | .bool b => some (if b then 1 else 0)
  | .int n => some (n : ℚ)
  | .float q => some q
  | _ => Option.none

mutual

/-- Python `==` on the modelled values: numeric types compare by value,
strings and `None` by content, lists elementwise; values of unrelated
shapes compare unequal.  (`other` stands for objects whose default
equality is identity; two values carrying the same tag model the same
object.)  Used for the `!=` change test in `_update_variables`. -/
def py_eq : PyValue → PyValue → Bool
  | .str s, .str t => s == t
  | .list xs, .list ys => py_eq_list xs ys
  | .none, .none => true
  | .other s, .other t => s == t
  | a, b =>
    match py_num a, py_num b with
    | some x, some y => x == y
    | _, _ => false

/-- Elementwise Python `==` on lists. -/
def py_eq_list : List PyValue → List PyValue → Bool
  | [], [] => true
  | x :: xs, y :: ys => py_eq x y && py_eq_list xs ys
  | _, _ => false

end

/-- A device attribute: either a plain data attribute or a callable
(method).  `params = Option.none` models a method on which
`inspect.signature` raises (introspection failure); `params = some ps`
gives the parameter names in order.  `impl` is the underlying callable;
it returns `PyValue.none` for a Python method that returns nothing. -/
inductive Attr where
  | data (value : PyValue)
  | method (params : Option (List String)) (impl : List PyValue → PyValue)

/-- A device interface: its attribute directory as `(name, attribute)`
pairs in `dir()` order (Python's `dir` yields names sorted; the concrete
devices below list them sorted). -/
def Device := List (String × Attr)

/-- `dir(self.interface)`. -/
def dirD (dev : Device) : List String := dev.map Prod.fst

/-- `getattr(self.interface, name)`, as a total lookup (`Option.none`
when the attribute is absent, in which case Python raises). -/
def getattrD (dev : Device) (name : String) : Option Attr := dev.lookup name

/-- `hasattr(self.interface, name)`. -/
def hasattrD (dev : Device) (name : String) : Bool := (getattrD dev name).isSome

/-- `callable(getattr(self.interface, name))`. -/
def is_callable : Option Attr → Bool
  | some (.method _ _) => true
  | _ => false

/-- The value read for an attribute (`getattr`).  Reading a method
attribute yields the bound-method object, which the classifier files
under the opaque default branch; only data attributes matter to the
claims. -/
def attr_value : Attr → PyValue
  | .data v => v
  | .method _ _ => .other "bound-method"

/-- `getattr(self.interface, name)` as a value read; `PyValue.none` is
never produced for names drawn from `dirD` (the lookup succeeds there by
construction). -/
def attr_value_at (dev : Device) (name : String) : PyValue :=
  match getattrD dev name with
  | some a => attr_value a
  | Option.none => PyValue.none

/-- `result is None`. -/
def py_is_none : PyValue → Bool
  | .none => true
  | _ => false

/-- `name.startswith('_')`: whether the name's first character is an
underscore. -/
def starts_underscore (s : String) : Bool :=
  match s.data with
  | [] => false
  | c :: _ => c == '_'

/-- The adapter's `default_options` (opcua.py lines 59-70), with caller
overrides merged over the defaults by the framework.  The update
interval is in seconds. -/
structure Options where
  port : Nat := 4840
  server_name : String := "Lewis OPCUA Server"
  uri : String := "urn:lewis:opcua"
  update_interval : ℚ := 1/10
  exclude_properties : List String := []
  read_only_properties : List String := []
  security_mode : String := "None"
  security_policy : String := "None"
  certificate : Option String := Option.none
  private_key : Option String := Option.none

/-- The state of the underlying `asyncua` server object held in
`self._server`. -/
structure ServerInfo where
  endpoint_port : Nat
  server_name : String
  /-- whether `set_security_policy` was applied -/
  secured : Bool := false
  /-- whether `self._server.start()` ran -/
  started : Bool := false
deriving DecidableEq, Repr

/-- An OPC UA variable node as created by `device_node.add_variable` and
configured by `_add_properties`. -/
structure NodeInfo where
  value : PyValue
  data_type : VariantType
  writeable : Bool
  /-- environment behaviour of the protocol engine: whether this node's
  `set_value` raises when called (`false` for a healthy node) -/
  set_fails : Bool := false

/-- The adapter's mutable attributes, as initialised in `__init__`
(opcua.py lines 74-86).  `interface` is the bound device, installed by
the framework. -/
structure AdapterState where
  /-- `self._running` -/
  running : Bool := false
  /-- `self._server` -/
  server : Option ServerInfo := Option.none
  /-- `self._nodes` (dict, as an association list in insertion order) -/
  nodes : List (String × NodeInfo) := []
  /-- `self._property_values` -/
  property_values : List (String × PyValue) := []
  /-- `self._update_thread` (whether a live thread object is held) -/
  update_thread : Bool := false
  /-- `self._stop_event` -/
  stop_event : Bool := false
  /-- `self.interface` -/
  interface : Option Device := Option.none

/-- Python dict assignment `m[k] = v`: overwrite in place when the key
exists, append otherwise (dicts preserve insertion order). -/
def dict_set (m : List (String × α)) (k : String) (v : α) : List (String × α) :=
  if (m.map Prod.fst).contains k then
    m.map (fun p => if p.1 = k then (p.1, v) else p)
  else m ++ [(k, v)]

/-- The exceptions the embedded adapter code can raise. -/
inductive PyErr where
  | attributeError (attr : String)
deriving DecidableEq, Repr

/-- `OPCUAAdapter.start_server` (opcua.py lines 88-145).

Returns the state as left behind plus the exception propagated, if any.
After the `self._running` guard, the method creates the server and sets
its endpoint and name, then evaluates the security condition at line
109, whose first conjunct reads `self._option.security_mode`.  The
instance has no attribute `_option`: `__init__` and every other use in
the class write `self._options`, and the base `Adapter` class (outside
this module; per the configuration model it carries only the merged
option set in `_options`) defines no `_option` either.  The lookup
therefore raises `AttributeError` before the condition can be decided,
and everything after line 109 — namespace registration, the address
space builders, `self._server.start()`, `self._running = True` and the
poller thread — is unreachable from `start_server`. -/
def start_server (opts : Options) (s : AdapterState) : AdapterState × Option PyErr :=
  if s.running then (s, Option.none)
  else
    -- self._server = Server(); set_endpoint(...); set_server_name(...)
    let s1 := { s with server := some ⟨opts.port, opts.server_name, false, false⟩ }
    -- if (self._option.security_mode != 'None' and ...): AttributeError
    (s1, some (PyErr.attributeError "_option"))

/-- `OPCUAAdapter._add_properties`, body of the loop for one name from
`dir(self.interface)` (opcua.py lines 156-198).  Excluded, underscore
and callable attributes are skipped; otherwise a variable node is
created with the current value and classified type, its writeable flag
set from the read-only list, and the node and the initial value are
stored in `self._nodes` and `self._property_values`. -/
def add_properties_step (opts : Options) (dev : Device) (s : AdapterState)
    (property : String) : AdapterState :=
  if opts.exclude_properties.contains property
      || starts_underscore property
      || is_callable (getattrD dev property) then s
  else
    let value := attr_value_at dev property
    let writeable := !(opts.read_only_properties.contains property)
    let data_type := get_ua_data_type value
    { s with
      nodes := dict_set s.nodes property ⟨value, data_type, writeable, false⟩,
      property_values := dict_set s.property_values property value }

/-- `OPCUAAdapter._add_properties` (opcua.py lines 148-198): the loop
over `dir(self.interface)`. -/
def add_properties (opts : Options) (dev : Device) (s : AdapterState) : AdapterState :=
  (dirD dev).foldl (add_properties_step opts dev) s

/-- A registered OPC UA method node: the input argument names handed to
`device_node.add_method` and the single output argument `"Result"`. -/
structure MethodNode where
  inputs : List String
  outputs : List String
deriving DecidableEq, Repr

/-- What `_add_methods` leaves behind: the method nodes registered on
the device node in order, the names for which a
`"Failed to add method ..."` warning was logged, and the final value of
the loop variable `method_name` — assigned on every iteration of the
loop, including the ones dismissed by `continue`. -/
structure MethodsResult where
  registered : List (String × MethodNode) := []
  warnings : List String := []
  method_name_var : Option String := Option.none
deriving Repr

/-- `inspect.signature(method).parameters` for a device attribute:
`Option.none` when the attribute is not an introspectable method. -/
def introspect (dev : Device) (name : String) : Option (List String) :=
  match getattrD dev name with
  | some (.method ps _) => ps
  | _ => Option.none

/-- `OPCUAAdapter._add_methods`, body of the loop for one name
(opcua.py lines 209-261).  The loop variable is recorded first (it is
assigned even on skipped iterations); non-callables and underscore names
are skipped; then the `try` block introspects the signature, builds one
input argument per parameter other than `self` plus the single `Result`
output, and registers the method node — any exception in the block is
caught, a warning naming the method is logged, and the loop
continues. -/
def add_methods_step (dev : Device) (acc : MethodsResult)
    (method_name : String) : MethodsResult :=
  let acc1 := { acc with method_name_var := some method_name }
  if !(is_callable (getattrD dev method_name)) || starts_underscore method_name then acc1
  else
    match introspect dev method_name with
    | Option.none => { acc1 with warnings := acc1.warnings ++ [method_name] }
    | some params =>
      let inputs := params.filter (fun p => p ≠ "self")
      { acc1 with registered := acc1.registered ++ [(method_name, ⟨inputs, ["Result"]⟩)] }

/-- `OPCUAAdapter._add_methods` (opcua.py lines 201-261): the loop over
`dir(self.interface)`. -/
def add_methods (dev : Device) : MethodsResult :=
  (dirD dev).foldl (add_methods_step dev) {}

/-- Exceptions a method-node invocation can raise. -/
inductive CallErr where
  /-- `method_name` was never assigned (empty attribute directory) -/
  | nameError
  /-- the attribute read by the wrapper no longer exists -/
  | attributeError
  /-- the attribute read by the wrapper is not callable -/
  | typeError
deriving DecidableEq, Repr

/-- Observable events of a method-node invocation: entering and leaving
the `with self.device_lock:` block, and the device callable actually
invoked. -/
inductive CallEvent where
  | acquire
  | invoke (name : String)
  | release
deriving DecidableEq, Repr

/-- `method_wrapper` (opcua.py lines 248-251), as invoked by a client
after registration.  Every wrapper created by `_add_methods` closes over
the same function-local variable `method_name` (one cell per call of
`_add_methods`, shared by all iterations), and a client can only invoke
a node once the registration loop has finished — so every wrapper reads
the loop variable's final value, the last entry of
`dir(self.interface)`, regardless of which method its node was
registered for.  Under `self.device_lock` it calls the attribute of that
final name with the given arguments and returns `[result]` for a
non-`None` result and `[]` otherwise; the lock is released on exit, also
when the call raises. -/
def method_wrapper (dev : Device) (args : List PyValue) :
    List CallEvent × Except CallErr (List PyValue) :=
  match (add_methods dev).method_name_var with
  | Option.none => ([], Except.error CallErr.nameError)
  | some n =>
    match getattrD dev n with
    | some (Attr.method _ impl) =>
      let result := impl args
      ([CallEvent.acquire, CallEvent.invoke n, CallEvent.release],
        Except.ok (if py_is_none result then [] else [result]))
    | some (Attr.data _) =>
      ([CallEvent.acquire, CallEvent.release], Except.error CallErr.typeError)
    | Option.none =>
      ([CallEvent.acquire, CallEvent.release], Except.error CallErr.attributeError)

/-- `OPCUAAdapter.stop_server` (opcua.py lines 294-319): no-op unless
running; otherwise set the stop event, join and drop the poller thread,
stop and drop the server, clear the running flag, and reset `_nodes` and
`_property_values` to empty dicts. -/
def stop_server (s : AdapterState) : AdapterState :=
  if !s.running then s
  else
    { s with
      stop_event := true,
      update_thread := false,
      server := Option.none,
      running := false,
      nodes := [],
      property_values := [] }

/-- Observable events of one poller cycle: the `while` guard's stop
check, entering and leaving the `with self.device_lock:` block, a
successful `node.set_value` push, a logged per-node failure, and the
`self._stop_event.wait(...)` call with its timeout in seconds. -/
inductive PollEvent where
  | check_stop
  | acquire
  | push (property : String)
  | warn (property : String)
  | wait (seconds : ℚ)
  | release
deriving DecidableEq, Repr

/-- `node.set_value(current_value)`: store the new value in the node
object held in `self._nodes` (the dict itself is not modified, only the
node it points to). -/
def set_node_value (nodes : List (String × NodeInfo)) (k : String) (v : PyValue) :
    List (String × NodeInfo) :=
  nodes.map (fun p => if p.1 = k then (p.1, { p.2 with value := v }) else p)

/-- Body of the `for property, node in self._nodes.items():` loop in
`_update_variables` (opcua.py lines 356-366) for one entry: skip
attributes no longer present; read the current value; push and re-cache
it when the cached entry is absent or differs (`!=`); when
`node.set_value` raises, log a warning and leave the cache entry as it
was. -/
def update_variables_step (dev : Device) (acc : AdapterState × List PollEvent)
    (entry : String × NodeInfo) : AdapterState × List PollEvent :=
  let s := acc.1
  let evs := acc.2
  let property := entry.1
  let node := entry.2
  if hasattrD dev property then
    let current_value := attr_value_at dev property
    let changed :=
      match s.property_values.lookup property with
      | Option.none => true
      | some old => !(py_eq old current_value)
    if changed then
      if node.set_fails then (s, evs ++ [PollEvent.warn property])
      else
        ({ s with
            nodes := set_node_value s.nodes property current_value,
            property_values := dict_set s.property_values property current_value },
          evs ++ [PollEvent.push property])
    else (s, evs)
  else (s, evs)

/-- The `while` guard of `_update_variables` (opcua.py line 353):
`not self._stop_event.is_set() and self._running and self.interface`. -/
def update_variables_guard (s : AdapterState) : Bool :=
  !s.stop_event && s.running && s.interface.isSome

/-- One full cycle of the `while` loop in `_update_variables`
(opcua.py lines 353-368), entered when the guard passed (recorded as the
cycle's `check_stop` event).  The `with self.device_lock:` block spans
the whole body: by the source's indentation,
`self._stop_event.wait(self._options.update_interval)` is the last
statement *inside* that block, so the lock is released only after the
wait returns. -/
def update_variables_cycle (opts : Options) (dev : Device) (s : AdapterState) :
    AdapterState × List PollEvent :=
  let start := (s, [PollEvent.check_stop, PollEvent.acquire])
  let result := s.nodes.foldl (update_variables_step dev) start
  (result.1, result.2 ++ [PollEvent.wait opts.update_interval, PollEvent.release])

/-- The device of `lewis/examples/opcua_device`: data attributes `power`
and `temperature`, methods `reset` and `set_temperature`, in `dir`
order (sorted; the inherited dunder names are underscore-prefixed and
ruled out by every underscore filter, so they are omitted — they are
also not last in sorted order, `_` sorting before all letters). -/
def example_device : Device :=
  [("power", Attr.data (PyValue.bool false)),
   ("reset", Attr.method (some []) (fun _ => PyValue.bool true)),
   ("set_temperature", Attr.method (some ["value"]) (fun _ => PyValue.bool true)),
   ("temperature", Attr.data (PyValue.float 25))]

/-- A device with a single data attribute. -/
def speed_device : Device := [("speed", Attr.data (PyValue.float 1))]

/-- An options record with all four security fields specified as
non-default. -/
def full_security_options : Options :=
  { security_mode := "SignAndEncrypt",
    security_policy := "Basic256Sha256",
    certificate := some "cert.pem",
    private_key := some "key.pem" }

/-- Whether `_add_methods` registers a node for this name: callable,
not underscore-prefixed, and introspectable. -/
def method_registrable (dev : Device) (n : String) : Bool :=
  is_callable (getattrD dev n) && !(starts_underscore n) && (introspect dev n).isSome

/-- Whether `_add_methods` logs a `Failed to add method` warning for
this name: callable and public, but introspection fails. -/
def method_warned (dev : Device) (n : String) : Bool :=
  is_callable (getattrD dev n) && !(starts_underscore n) && !(introspect dev n).isSome

/-- The method node `_add_methods` registers for an introspectable
name. -/
def mk_method_node (dev : Device) (n : String) : MethodNode :=
  ⟨((introspect dev n).getD []).filter (fun p => p ≠ "self"), ["Result"]⟩

/-- Whether a poll event is the inter-cycle wait. -/
def is_wait : PollEvent → Bool
  | .wait _ => true
  | _ => false

/-- Whether a poll event is the lock release. -/
def is_release : PollEvent → Bool
  | .release => true
  | _ => false

/-- A running adapter state with the example device bound, one node
built and the poller thread live. -/
def running_state : AdapterState :=
  { running := true,
    interface := some example_device,
    server := some ⟨4840, "Lewis OPCUA Server", false, true⟩,
    nodes := [("power", ⟨PyValue.bool false, VariantType.Boolean, true, false⟩)],
    property_values := [("power", PyValue.bool false)],
    update_thread := true }

/-- The fresh adapter with the example device bound by the framework. -/
def bound_state : AdapterState := { interface := some example_device }

def method_a_impl : List PyValue → PyValue := fun _ => PyValue.int 1

def method_b_impl : List PyValue → PyValue := fun _ => PyValue.int 2

/-- A device with two public methods, in `dir` order; `method_b` is the
last entry of the attribute directory. -/
def two_method_device : Device :=
  [("method_a", Attr.method (some []) method_a_impl),
   ("method_b", Attr.method (some []) method_b_impl)]

/-- A device with one method that defeats introspection and one that
does not, in `dir` order. -/
def introspect_fail_device : Device :=
  [("bad_method", Attr.method Option.none (fun _ => PyValue.none)),
   ("good_method", Attr.method (some ["value"]) (fun _ => PyValue.bool true))]

/-- A stopped adapter with the single-property device bound. -/
def stopped_state : AdapterState := { interface := some speed_device }

/-- A device exposing no data attributes (one public method only). -/
def no_props_device : Device :=
  [("do_reset", Attr.method (some []) (fun _ => PyValue.none))]

/-- A running adapter for `no_props_device`, as one poller cycle sees
it. -/
def no_props_state : AdapterState :=
  { running := true, interface := some no_props_device }

/-- The event trace of one poller cycle on `no_props_state` under
default options. -/
def c5_trace : List PollEvent :=
  (update_variables_cycle {} no_props_device no_props_state).2

/-- A running adapter with `speed_device` bound and its single property
tracked in both the node map and the value cache. -/
def c10_state : AdapterState :=
  { running := true,
    interface := some speed_device,
    nodes := [("speed", ⟨PyValue.float 1, VariantType.Double, true, false⟩)],
    property_values := [("speed", PyValue.float 1)] }

example : get_ua_data_type (.list [.int 1, .int 2, .int 3]) = VariantType.Int64 := by rfl
example : get_ua_data_type (.list [.bool true, .bool false]) = VariantType.Boolean := by rfl
example : get_ua_data_type (.list [.int 1, .float (5/2)]) = VariantType.Variant := by rfl
example : get_ua_data_type (.list [.float 1, .float (5/2)]) = VariantType.Double := by rfl
example : get_ua_data_type (.list [.str "a", .str "b"]) = VariantType.Variant := by rfl
example : get_ua_data_type (.bool true) = VariantType.Boolean := by rfl
example : get_ua_data_type (.int 7) = VariantType.Int64 := by rfl
example : py_eq (.bool true) (.int 1) = true := by simp [py_eq, py_num]
example : py_eq (.int 1) (.float 1) = true := by simp [py_eq, py_num]
example : py_eq (.int 1) (.float (5/2)) = false := by simp [py_eq, py_num]; norm_num

/-! ## Helper lemmas -/

lemma all_const_cons (y : α) (ys : List α) (c : Bool) :
    (y :: ys).all (fun _ => c) = c := by cases c <;> simp

lemma add_methods_fold (dev : Device) (l : List String) (acc : MethodsResult) :
    (l.foldl (add_methods_step dev) acc).registered =
      acc.registered ++ (l.filter (fun n => method_registrable dev n)).map
        (fun n => (n, mk_method_node dev n)) ∧
    (l.foldl (add_methods_step dev) acc).warnings =
      acc.warnings ++ l.filter (fun n => method_warned dev n) := by
  induction l generalizing acc with
  | nil => simp
  | cons n rest ih =>
    simp only [List.foldl_cons]
    obtain ⟨ih1, ih2⟩ := ih (add_methods_step dev acc n)
    by_cases hskip : (!(is_callable (getattrD dev n)) || starts_underscore n) = true
    · have hstep : (add_methods_step dev acc n).registered = acc.registered ∧
          (add_methods_step dev acc n).warnings = acc.warnings := by
        constructor <;> simp [add_methods_step, hskip]
      simp only [Bool.or_eq_true, Bool.not_eq_true'] at hskip
      have hreg : method_registrable dev n = false := by
        rcases hskip with h | h <;> simp [method_registrable, h]
      have hwar : method_warned dev n = false := by
        rcases hskip with h | h <;> simp [method_warned, h]
      refine ⟨?_, ?_⟩
      · rw [ih1, hstep.1, List.filter_cons_of_neg (by simp [hreg])]
      · rw [ih2, hstep.2, List.filter_cons_of_neg (by simp [hwar])]
    · simp only [Bool.or_eq_true, Bool.not_eq_true', not_or, Bool.not_eq_false,
        Bool.not_eq_true] at hskip
      obtain ⟨hc, hu⟩ := hskip
      cases hin : introspect dev n with
      | none =>
        have hstep : (add_methods_step dev acc n).registered = acc.registered ∧
            (add_methods_step dev acc n).warnings = acc.warnings ++ [n] := by
          constructor <;> simp [add_methods_step, hc, hu, hin]
        have hreg : method_registrable dev n = false := by
          simp [method_registrable, hin]
        have hwar : method_warned dev n = true := by
          simp [method_warned, hc, hu, hin]
        refine ⟨?_, ?_⟩
        · rw [ih1, hstep.1, List.filter_cons_of_neg (by simp [hreg])]
        · rw [ih2, hstep.2, List.filter_cons_of_pos (by simp [hwar])]
          simp
      | some params =>
        have hstep : (add_methods_step dev acc n).registered =
              acc.registered ++ [(n, mk_method_node dev n)] ∧
            (add_methods_step dev acc n).warnings = acc.warnings := by
          constructor <;> simp [add_methods_step, hc, hu, hin, mk_method_node]
        have hreg : method_registrable dev n = true := by
          simp [method_registrable, hc, hu, hin]
        have hwar : method_warned dev n = false := by
          simp [method_warned, hin]
        refine ⟨?_, ?_⟩
        · rw [ih1, hstep.1, List.filter_cons_of_pos (by simp [hreg]), List.map_cons]
          simp
        · rw [ih2, hstep.2, List.filter_cons_of_neg (by simp [hwar])]

lemma map_fst_of_map_pair (l : List String) (f : String → MethodNode) :
    (l.map (fun n => (n, f n))).map Prod.fst = l := by
  induction l with
  | nil => rfl
  | cons n rest ih => simp [ih]

lemma update_variables_step_events (dev : Device)
    (acc : AdapterState × List PollEvent) (entry : String × NodeInfo) :
    ∃ add, (update_variables_step dev acc entry).2 = acc.2 ++ add ∧
      ∀ e ∈ add, ∃ p, e = PollEvent.push p ∨ e = PollEvent.warn p := by
  simp only [update_variables_step]
  split
  · split
    · split
      · exact ⟨[PollEvent.warn entry.1], rfl, by simp⟩
      · exact ⟨[PollEvent.push entry.1], rfl, by simp⟩
    · exact ⟨[], by simp, by simp⟩
  · exact ⟨[], by simp, by simp⟩

lemma update_variables_fold_events (dev : Device) (l : List (String × NodeInfo))
    (acc : AdapterState × List PollEvent) :
    ∃ mid, (l.foldl (update_variables_step dev) acc).2 = acc.2 ++ mid ∧
      ∀ e ∈ mid, ∃ p, e = PollEvent.push p ∨ e = PollEvent.warn p := by
  induction l generalizing acc with
  | nil => exact ⟨[], by simp, by simp⟩
  | cons entry rest ih =>
    simp only [List.foldl_cons]
    obtain ⟨add, hadd, haddP⟩ := update_variables_step_events dev acc entry
    obtain ⟨mid, hmid, hmidP⟩ := ih (update_variables_step dev acc entry)
    refine ⟨add ++ mid, ?_, ?_⟩
    · rw [hmid, hadd, List.append_assoc]
    · intro e he
      rcases List.mem_append.mp he with h | h
      · exact haddP e h
      · exact hmidP e h

lemma map_fst_overwrite (m : List (String × α)) (k : String) (v : α) :
    (m.map (fun p => if p.1 = k then (p.1, v) else p)).map Prod.fst =
      m.map Prod.fst := by
  induction m with
  | nil => rfl
  | cons p rest ih => by_cases h : p.1 = k <;> simp [h, ih]

lemma dict_set_keys (m : List (String × α)) (k : String) (v : α) :
    (dict_set m k v).map Prod.fst =
      if (m.map Prod.fst).contains k then m.map Prod.fst
      else m.map Prod.fst ++ [k] := by
  unfold dict_set
  by_cases h : (m.map Prod.fst).contains k = true
  · rw [if_pos h, if_pos h, map_fst_overwrite]
  · rw [if_neg h, if_neg h]
    simp

lemma set_node_value_keys (m : List (String × NodeInfo)) (k : String)
    (v : PyValue) :
    (set_node_value m k v).map Prod.fst = m.map Prod.fst := by
  unfold set_node_value
  induction m with
  | nil => rfl
  | cons p rest ih => by_cases h : p.1 = k <;> simp [h, ih]

lemma lookup_isSome_of_mem_keys (m : List (String × α)) (p : String)
    (h : p ∈ m.map Prod.fst) : (m.lookup p).isSome = true := by
  induction m with
  | nil => simp at h
  | cons e rest ih =>
    rcases e with ⟨k, v⟩
    simp only [List.map_cons, List.mem_cons] at h
    by_cases hk : (p == k) = true
    · simp [List.lookup, hk]
    · have hmem : p ∈ rest.map Prod.fst := by
        rcases h with h | h
        · exact absurd (by simp [h]) hk
        · exact h
      simp [List.lookup, hk, ih hmem]

lemma add_properties_step_keys (opts : Options) (dev : Device)
    (s : AdapterState) (n : String)
    (h : s.nodes.map Prod.fst = s.property_values.map Prod.fst) :
    (add_properties_step opts dev s n).nodes.map Prod.fst =
      (add_properties_step opts dev s n).property_values.map Prod.fst := by
  simp only [add_properties_step]
  split
  · exact h
  · simp only [dict_set_keys, h]

lemma add_properties_keys (opts : Options) (dev : Device) (l : List String)
    (s : AdapterState)
    (h : s.nodes.map Prod.fst = s.property_values.map Prod.fst) :
    (l.foldl (add_properties_step opts dev) s).nodes.map Prod.fst =
      (l.foldl (add_properties_step opts dev) s).property_values.map Prod.fst := by
  induction l generalizing s with
  | nil => exact h
  | cons n rest ih =>
    simp only [List.foldl_cons]
    exact ih _ (add_properties_step_keys opts dev s n h)

lemma update_variables_step_keys (dev : Device)
    (acc : AdapterState × List PollEvent) (entry : String × NodeInfo)
    (hmem : entry.1 ∈ acc.1.property_values.map Prod.fst) :
    (update_variables_step dev acc entry).1.nodes.map Prod.fst =
        acc.1.nodes.map Prod.fst ∧
    (update_variables_step dev acc entry).1.property_values.map Prod.fst =
        acc.1.property_values.map Prod.fst := by
  have hc : (acc.1.property_values.map Prod.fst).contains entry.1 = true := by
    simpa using hmem
  simp only [update_variables_step]
  split
  · split
    · split
      · exact ⟨rfl, rfl⟩
      · constructor
        · simp [set_node_value_keys]
        · simp only [dict_set_keys, hc, eq_self_iff_true, if_true]
    · exact ⟨rfl, rfl⟩
  · exact ⟨rfl, rfl⟩

lemma update_variables_fold_keys (dev : Device) (l : List (String × NodeInfo))
    (acc : AdapterState × List PollEvent)
    (hl : ∀ e ∈ l, e.1 ∈ acc.1.property_values.map Prod.fst) :
    (l.foldl (update_variables_step dev) acc).1.nodes.map Prod.fst =
        acc.1.nodes.map Prod.fst ∧
    (l.foldl (update_variables_step dev) acc).1.property_values.map Prod.fst =
        acc.1.property_values.map Prod.fst := by
  induction l generalizing acc with
  | nil => exact ⟨rfl, rfl⟩
  | cons entry rest ih =>
    have hmem0 : entry.1 ∈ acc.1.property_values.map Prod.fst :=
      hl entry (List.mem_cons_self _ _)
    have hkeys := update_variables_step_keys dev acc entry hmem0
    have hl2 : ∀ e ∈ rest,
        e.1 ∈ (update_variables_step dev acc entry).1.property_values.map Prod.fst := by
      intro e he
      rw [hkeys.2]
      exact hl e (List.mem_cons_of_mem _ he)
    obtain ⟨ihn, ihp⟩ := ih (update_variables_step dev acc entry) hl2
    simp only [List.foldl_cons]
    exact ⟨ihn.trans hkeys.1, ihp.trans hkeys.2⟩

/-! ## Claim theorems -/

/-- Claim C6: a boolean runtime value is always classified `Boolean` and
never `Int64`, although a boolean also passes the integral
`isinstance` test (`bool` subclasses `int` in Python) — the boolean
branch of `_get_ua_data_type` is decided strictly before the integral
one. -/
theorem C6_bool_never_Int64 (b : Bool) :
    get_ua_data_type (PyValue.bool b) = VariantType.Boolean ∧
    get_ua_data_type (PyValue.bool b) ≠ VariantType.Int64 ∧
    isinstance_int (PyValue.bool b) = true := by
  have h : get_ua_data_type (PyValue.bool b) = VariantType.Boolean := rfl
  exact ⟨h, by rw [h]; decide, rfl⟩

/-- Claim C2, counterexample: the mixed numeric list `[1, 2.5]` is
classified as the generic `Variant` tag, not as `Double` — the third
list branch of `_get_ua_data_type` demands that every element be a
`float`, and the integer `1` is not one. -/
theorem C2_mixed_numeric_list_counterexample :
    get_ua_data_type (PyValue.list [PyValue.int 1, PyValue.float (5/2)]) =
      VariantType.Variant ∧
    VariantType.Variant ≠ VariantType.Double :=
  ⟨rfl, by decide⟩

/-- Claim C2 as amended: for every list value the classifier returns
`Boolean` when every element is a boolean, otherwise `Int64` when every
element is integral (booleans included), otherwise `Double` when every
element is a `float` — not merely numeric: a mixed integer/float list
falls through — and otherwise the generic/opaque `Variant` tag. -/
theorem C2_list_classification (xs : List PyValue) :
    get_ua_data_type (PyValue.list xs) =
      if xs.all (fun x => isinstance_bool x) then VariantType.Boolean
      else if xs.all (fun x => isinstance_int x) then VariantType.Int64
      else if xs.all (fun x => isinstance_float x) then VariantType.Double
      else VariantType.Variant := by
  cases xs with
  | nil => rfl
  | cons y ys =>
    have h : get_ua_data_type (PyValue.list (y :: ys)) =
        (if (y :: ys).all (fun x => isinstance_bool x) then VariantType.Boolean
         else if (y :: ys).all (fun x => isinstance_int x) then VariantType.Int64
         else if (y :: ys).all
             (fun _ => (y :: ys).all (fun x => isinstance_float x)) then
           VariantType.Double
         else VariantType.Variant) := rfl
    rw [h, all_const_cons]

/-- Claim C1 (code bug): for every configuration and every non-running
state, `start_server` raises `AttributeError` when the security
condition reads the nonexistent attribute `self._option`, regardless of
whether the four security options are specified — the adapter is left
not running, the server is created but never secured and never started,
and no nodes are built.  `start()` therefore neither enables security
nor completes as an unsecured server. -/
theorem C1_start_raises_attribute_error (opts : Options) (s : AdapterState)
    (h : s.running = false) :
    (start_server opts s).2 = some (PyErr.attributeError "_option") ∧
    (start_server opts s).1.running = false ∧
    (start_server opts s).1.server =
      some ⟨opts.port, opts.server_name, false, false⟩ ∧
    (start_server opts s).1.nodes = s.nodes ∧
    (start_server opts s).1.property_values = s.property_values := by
  simp [start_server, h]

/-- Witness for C1: a fresh adapter configured with full security
material (mode, policy, certificate and key all non-default) still hits
the `AttributeError`. -/
theorem C1_witness :
    (start_server full_security_options {}).2 =
      some (PyErr.attributeError "_option") ∧
    (start_server full_security_options {}).1.running = false ∧
    (start_server full_security_options {}).1.server =
      some ⟨full_security_options.port, full_security_options.server_name,
        false, false⟩ ∧
    (start_server full_security_options {}).1.nodes = ({} : AdapterState).nodes ∧
    (start_server full_security_options {}).1.property_values =
      ({} : AdapterState).property_values :=
  C1_start_raises_attribute_error full_security_options {} rfl

/-- Claim C9: `start_server` invoked while the adapter is running
returns immediately with the state unchanged — no nodes are added, no
second poller thread is spawned, no error is raised — and `stop_server`
invoked while stopped (including on a never-started adapter) returns
the state unchanged and does not fail. -/
theorem C9_start_stop_idempotent (opts : Options) (s t : AdapterState)
    (hs : s.running = true) (ht : t.running = false) :
    start_server opts s = (s, Option.none) ∧ stop_server t = t := by
  constructor
  · simp [start_server, hs]
  · simp [stop_server, ht]

/-- Witness for C9: starting the running adapter changes nothing, and
stopping a fresh (never-started) adapter changes nothing. -/
theorem C9_witness :
    start_server {} running_state = (running_state, Option.none) ∧
    stop_server {} = ({} : AdapterState) :=
  ⟨(C9_start_stop_idempotent {} running_state {} rfl rfl).1,
   (C9_start_stop_idempotent {} running_state {} rfl rfl).2⟩

/-- Claim C3 (code bug): with the example device bound and default
options, `start_server` raises at the `self._option` read before either
builder runs — the variable-node and method-node sets stay empty instead
of equalling the claimed attribute partition, which is exactly what the
builders produce when applied to the same device. -/
theorem C3_start_builds_no_nodes :
    (start_server {} bound_state).2 = some (PyErr.attributeError "_option") ∧
    (start_server {} bound_state).1.nodes.map Prod.fst = [] ∧
    (add_properties {} example_device bound_state).nodes.map Prod.fst =
      ["power", "temperature"] ∧
    (add_methods example_device).registered.map Prod.fst =
      ["reset", "set_temperature"] :=
  ⟨rfl, rfl, rfl, rfl⟩

/-- Claim C4 (code bug): both methods of `two_method_device` get
registered, but the invocation wrapper they share reads the
registration loop's `method_name` variable at call time — so invoking
the node registered for `method_a` acquires and releases the lock
around a call to `method_b`, returning `[2]` instead of `method_a`'s
result `[1]`. -/
theorem C4_wrapper_calls_wrong_method :
    (add_methods two_method_device).registered.map Prod.fst =
      ["method_a", "method_b"] ∧
    (add_methods two_method_device).method_name_var = some "method_b" ∧
    method_wrapper two_method_device [] =
      ([CallEvent.acquire, CallEvent.invoke "method_b", CallEvent.release],
        Except.ok [PyValue.int 2]) ∧
    method_a_impl [] = PyValue.int 1 :=
  ⟨rfl, rfl, rfl, rfl⟩

/-- Claim C7: when introspecting method `m` fails, `_add_methods` logs
a warning naming `m`, registers no node for `m`, and still registers
exactly the callable, public, introspectable methods — the per-method
`try` confines the failure, so the builder returns normally and the
remaining registrations (and the property nodes, built by the separate
`_add_properties`) are unaffected. -/
theorem C7_introspection_failure_isolated (dev : Device) (m : String)
    (hmem : m ∈ dirD dev)
    (hcall : is_callable (getattrD dev m) = true)
    (hpub : starts_underscore m = false)
    (hfail : introspect dev m = Option.none) :
    m ∈ (add_methods dev).warnings ∧
    m ∉ (add_methods dev).registered.map Prod.fst ∧
    (add_methods dev).registered.map Prod.fst =
      (dirD dev).filter (fun n => method_registrable dev n) := by
  obtain ⟨hreg, hwarn⟩ := add_methods_fold dev (dirD dev) {}
  have hmap : (add_methods dev).registered.map Prod.fst =
      (dirD dev).filter (fun n => method_registrable dev n) := by
    rw [add_methods, hreg]
    simp only [List.nil_append]
    exact map_fst_of_map_pair _ _
  refine ⟨?_, ?_, hmap⟩
  · rw [add_methods, hwarn]
    simp only [List.nil_append]
    exact List.mem_filter.mpr ⟨hmem, by simp [method_warned, hcall, hpub, hfail]⟩
  · rw [hmap]
    intro hmm
    have := (List.mem_filter.mp hmm).2
    simp [method_registrable, hfail] at this

/-- Witness for C7 on `introspect_fail_device`: the failing method is
warned about and skipped while the other method is still registered. -/
theorem C7_witness :
    "bad_method" ∈ (add_methods introspect_fail_device).warnings ∧
    "bad_method" ∉ (add_methods introspect_fail_device).registered.map Prod.fst ∧
    (add_methods introspect_fail_device).registered.map Prod.fst =
      (dirD introspect_fail_device).filter
        (fun n => method_registrable introspect_fail_device n) :=
  C7_introspection_failure_isolated introspect_fail_device "bad_method"
    (by decide) rfl rfl rfl

/-- Claim C8 (code bug): stopping the stopped adapter is a no-op with
both maps empty and the lifecycle stopped; but the subsequent start does
not rebuild the maps from the device — it raises at the `self._option`
read and leaves both maps empty, although `_add_properties` applied to
the same device would produce the `speed` node together with its cache
entry. -/
theorem C8_restart_rebuilds_nothing :
    stop_server stopped_state = stopped_state ∧
    stopped_state.nodes = [] ∧
    stopped_state.property_values = [] ∧
    stopped_state.running = false ∧
    (start_server {} (stop_server stopped_state)).2 =
      some (PyErr.attributeError "_option") ∧
    (start_server {} (stop_server stopped_state)).1.nodes = [] ∧
    (start_server {} (stop_server stopped_state)).1.property_values = [] ∧
    (add_properties {} speed_device stopped_state).nodes.map Prod.fst =
      ["speed"] ∧
    (add_properties {} speed_device stopped_state).property_values.map Prod.fst =
      ["speed"] :=
  ⟨rfl, rfl, rfl, rfl, rfl, rfl, rfl, rfl, rfl⟩

/-- Claim C5, counterexample: in the concrete poller cycle the trace is
`check_stop, acquire, wait, release` — no release position strictly
precedes a wait position, so the exclusive access is not released
before the inter-cycle wait begins. -/
theorem C5_lock_held_during_wait_counterexample :
    c5_trace = [PollEvent.check_stop, PollEvent.acquire,
      PollEvent.wait ({} : Options).update_interval, PollEvent.release] ∧
    ¬ ∃ i : Fin c5_trace.length, ∃ j : Fin c5_trace.length,
        (i : ℕ) < (j : ℕ) ∧ is_release (c5_trace.get i) = true ∧
          is_wait (c5_trace.get j) = true := by
  refine ⟨rfl, ?_⟩
  decide

/-- Claim C5 as amended: every poller cycle checks the stop signal
exactly once (the `while` guard) and waits exactly once, bounded by
`update_interval` seconds — but the wait happens while the device lock
is held: the cycle's trace is `check_stop, acquire`, then only node
pushes and per-node failure warnings, then the
`wait update_interval` followed immediately by `release`, so the lock
is released only after the inter-cycle wait completes. -/
theorem C5_cycle_checks_stop_and_waits_under_lock (opts : Options) (dev : Device)
    (s : AdapterState) :
    ∃ mid, (update_variables_cycle opts dev s).2 =
        [PollEvent.check_stop, PollEvent.acquire] ++ mid ++
          [PollEvent.wait opts.update_interval, PollEvent.release] ∧
      ∀ e ∈ mid, ∃ p, e = PollEvent.push p ∨ e = PollEvent.warn p := by
  obtain ⟨mid, hmid, hmidP⟩ := update_variables_fold_events dev s.nodes
    (s, [PollEvent.check_stop, PollEvent.acquire])
  refine ⟨mid, ?_, hmidP⟩
  simp only [update_variables_cycle]
  rw [hmid, List.append_assoc]

/-- Claim C10: whenever the node map and the value cache list the same
keys — as they do initially and after every operation — each bridge
operation preserves the correspondence: `_add_properties` inserts a
node and its cached initial value together, a poller cycle leaves both
key sequences unchanged (the cache is only overwritten at tracked
keys), and `stop_server` clears both together; moreover, under the
invariant every tracked property has a cache entry, so the poller's
`property not in self._property_values` fallback test is false for
every tracked property — that branch is unreachable. -/
theorem C10_nodes_cache_same_keys (opts : Options) (dev : Device)
    (s : AdapterState)
    (h : s.nodes.map Prod.fst = s.property_values.map Prod.fst) :
    ((add_properties opts dev s).nodes.map Prod.fst =
      (add_properties opts dev s).property_values.map Prod.fst) ∧
    ((update_variables_cycle opts dev s).1.nodes.map Prod.fst =
      (update_variables_cycle opts dev s).1.property_values.map Prod.fst) ∧
    ((stop_server s).nodes.map Prod.fst =
      (stop_server s).property_values.map Prod.fst) ∧
    (∀ p ∈ s.nodes.map Prod.fst,
      (s.property_values.lookup p).isSome = true) := by
  refine ⟨add_properties_keys opts dev (dirD dev) s h, ?_, ?_, ?_⟩
  · have hl : ∀ e ∈ s.nodes, e.1 ∈ s.property_values.map Prod.fst := by
      intro e he
      rw [← h]
      exact List.mem_map_of_mem Prod.fst he
    obtain ⟨hn, hp⟩ := update_variables_fold_keys dev s.nodes
      (s, [PollEvent.check_stop, PollEvent.acquire]) hl
    simp only [update_variables_cycle]
    rw [hn, hp]
    exact h
  · by_cases hr : s.running = true
    · simp [stop_server, hr]
    · simp only [stop_server]
      rw [if_pos (by simp [Bool.eq_false_iff.mpr hr])]
      exact h
  · intro p hp
    exact lookup_isSome_of_mem_keys _ _ (h ▸ hp)

/-- Witness for C10 at `c10_state`, whose two maps list the same
keys. -/
theorem C10_witness :
    ((add_properties {} speed_device c10_state).nodes.map Prod.fst =
      (add_properties {} speed_device c10_state).property_values.map Prod.fst) ∧
    ((update_variables_cycle {} speed_device c10_state).1.nodes.map Prod.fst =
      (update_variables_cycle {} speed_device c10_state).1.property_values.map Prod.fst) ∧
    ((stop_server c10_state).nodes.map Prod.fst =
      (stop_server c10_state).property_values.map Prod.fst) ∧
    (∀ p ∈ c10_state.nodes.map Prod.fst,
      (c10_state.property_values.lookup p).isSome = true) :=
  C10_nodes_cache_same_keys {} speed_device c10_state rfl
